import Mathlib

/-!
Verification development for the HVPS test-sequencing window
(`src/gui/hvps_test_window.py`, class `HVPSTestWindow`).

The Python class is a GUI-driven state machine.  We embed the parts of it
that carry state and ordering guarantees as pure Lean functions:

* channels are the string identifiers used by the source
  (`"BM"`, `"EX"`, `"L1"`, `"L2"`, `"L3"`, `"L4"`, `"SL"`);
* the HVPS device is an external collaborator; every device call issued by
  a handler is recorded in a trace (`DevCall`), and every response string
  the handler reads from the device (a `get_state` token, a `get_voltage`
  or `get_current` readback) is passed to the embedded handler as an
  explicit argument;
* the two result dictionaries (`self.readbacks`, `self.measurements`),
  which the source creates with the seven channel keys fixed, are embedded
  as a seven-field structure `ResultDict`;
* Qt widget enabled/disabled state that the handlers read or write
  (test buttons, measurement line edits, the back button) is embedded as
  boolean fields; purely visual operations (focus, layout, photos) are
  dropped.
-/

/-- Device calls issued by the window to the HVPS collaborator, in the
order they appear in the source (`self.hvps.…`). -/
inductive DevCall where
  | getState : DevCall
  | setVoltage (channel : String) (value : String) : DevCall
  | getVoltage (channel : String) : DevCall
  | setSolenoidCurrent (value : String) : DevCall
  | getCurrent (channel : String) : DevCall
  | enableHV : DevCall
  | disableHV : DevCall
  | enableSol : DevCall
  | disableSol : DevCall
  deriving DecidableEq, Repr

/-- The canonical channel order used by the dictionaries in
`HVPSTestWindow.__init__` and by `test_plan`. -/
def canonicalChannels : List String := ["BM", "EX", "L1", "L2", "L3", "L4", "SL"]

/-- Number of result slots per channel: the dict literals in
`HVPSTestWindow.__init__` give six slots to each HV channel and three to
`SL`. -/
def slots (channel : String) : Nat := if channel = "SL" then 3 else 6

/-- Embeds `HVPSTestWindow.get_hv_enable_state`, with the token returned by
`self.hvps.get_state()` passed as the argument: returns `false` iff the
token is `'STATE0000'` or `'STATE0010'`. -/
def get_hv_enable_state (state : String) : Bool :=
  if state = "STATE0000" ∨ state = "STATE0010" then false else true

/-- Embeds `HVPSTestWindow.get_sol_enable_state`, with the token returned
by `self.hvps.get_state()` passed as the argument: returns `false` iff the
token is `'STATE0000'` or `'STATE0001'`. -/
def get_sol_enable_state (state : String) : Bool :=
  if state = "STATE0000" ∨ state = "STATE0001" then false else true

/-- One of the two result dictionaries of `HVPSTestWindow`
(`self.readbacks` / `self.measurements`): a Python dict whose keys are
exactly the seven canonical channels, embedded as a seven-field record of
string lists. -/
structure ResultDict where
  BM : List String
  EX : List String
  L1 : List String
  L2 : List String
  L3 : List String
  L4 : List String
  SL : List String
  deriving DecidableEq, Repr

/-- The dict literal in `HVPSTestWindow.__init__`: every slot of every
channel starts as the sentinel `'N/I'`, six slots per HV channel and three
for `SL`. -/
def initResultDict : ResultDict :=
  ⟨List.replicate 6 "N/I", List.replicate 6 "N/I", List.replicate 6 "N/I",
   List.replicate 6 "N/I", List.replicate 6 "N/I", List.replicate 6 "N/I",
   List.replicate 3 "N/I"⟩

/-- Python `d[channel]` on a result dict.  The source only ever indexes
with one of the seven literal keys; other keys (a `KeyError` in Python)
are mapped to `[]`. -/
def dictGet (d : ResultDict) (channel : String) : List String :=
  if channel = "BM" then d.BM
  else if channel = "EX" then d.EX
  else if channel = "L1" then d.L1
  else if channel = "L2" then d.L2
  else if channel = "L3" then d.L3
  else if channel = "L4" then d.L4
  else if channel = "SL" then d.SL
  else []

/-- Python `d[channel][i] = v` on a result dict (the assignment performed
by every `handle_*_entered` handler).  An unknown key (a `KeyError` in
Python, never reached by the source) leaves the dict unchanged. -/
def dictSet (d : ResultDict) (channel : String) (i : Nat) (v : String) : ResultDict :=
  if channel = "BM" then ⟨d.BM.set i v, d.EX, d.L1, d.L2, d.L3, d.L4, d.SL⟩
  else if channel = "EX" then ⟨d.BM, d.EX.set i v, d.L1, d.L2, d.L3, d.L4, d.SL⟩
  else if channel = "L1" then ⟨d.BM, d.EX, d.L1.set i v, d.L2, d.L3, d.L4, d.SL⟩
  else if channel = "L2" then ⟨d.BM, d.EX, d.L1, d.L2.set i v, d.L3, d.L4, d.SL⟩
  else if channel = "L3" then ⟨d.BM, d.EX, d.L1, d.L2, d.L3.set i v, d.L4, d.SL⟩
  else if channel = "L4" then ⟨d.BM, d.EX, d.L1, d.L2, d.L3, d.L4.set i v, d.SL⟩
  else if channel = "SL" then ⟨d.BM, d.EX, d.L1, d.L2, d.L3, d.L4, d.SL.set i v⟩
  else d

/-- Embeds `HVPSTestWindow.test_plan`: appends one stage per occupied
channel, tested in the fixed order BM, EX, L1, L2, L3, L4, SL.  Each stage
is identified here by the channel whose GUI-builder it appends
(`create_beam_test_gui` sets `self.channel = 'BM'`, and so on). -/
def test_plan (occupied_channels : List String) : List String :=
  (if "BM" ∈ occupied_channels then ["BM"] else []) ++
  (if "EX" ∈ occupied_channels then ["EX"] else []) ++
  (if "L1" ∈ occupied_channels then ["L1"] else []) ++
  (if "L2" ∈ occupied_channels then ["L2"] else []) ++
  (if "L3" ∈ occupied_channels then ["L3"] else []) ++
  (if "L4" ∈ occupied_channels then ["L4"] else []) ++
  (if "SL" ∈ occupied_channels then ["SL"] else [])

/-- Follows the spec's words for the Sequencer contract (§4.1, §8):
"filters the canonical 7-channel order {BM, EX, L1, L2, L3, L4, SL} down
to occupied channels".  Stated separately from `test_plan` so the two can
be compared. -/
def sequencerBuildSpec (occupied : List String) : List String :=
  canonicalChannels.filter (fun c => decide (c ∈ occupied))

/-- Python list indexing `l[i]` with an `int` index: non-negative indexes
address from the front, negative indexes address from the back
(`l[-1]` is the last element), and anything outside `[-len, len)` raises
`IndexError` (here: `none`). -/
def pyGet (l : List String) (i : Int) : Option String :=
  if 0 ≤ i then l.get? i.toNat
  else if 0 ≤ (l.length : Int) + i then l.get? ((l.length : Int) + i).toNat
  else none

/-- The mutable state of `HVPSTestWindow` that the sequencing handlers
touch: the stage list built by `test_plan`, `self.current_stage_index`
(a Python `int`, so embedded as `Int`), the two result dicts, the
`back_button_pressed` flag, and `self.channel` (set by the most recently
loaded stage GUI). -/
structure WinState where
  test_stages : List String
  current_stage_index : Int
  readbacks : ResultDict
  measurements : ResultDict
  back_button_pressed : Bool
  channel : String
  deriving Repr

/-- Outcome of `HVPSTestWindow.load_current_stage`: either a stage GUI is
built (identified by the channel it installs), or the test is complete —
`test_complete` is emitted with the two accumulated dicts, in that order,
and then the window is closed — or the stage indexing raises
`IndexError`. -/
inductive LoadOutcome where
  | loaded (channel : String) : LoadOutcome
  | completedEmitClose (readbacks measurements : ResultDict) : LoadOutcome
  | indexError : LoadOutcome
  deriving DecidableEq, Repr

/-- Embeds `HVPSTestWindow.load_current_stage`: if
`current_stage_index < len(test_stages)` the stage at that index is
called (Python indexing, so a negative index addresses from the back);
otherwise `test_complete.emit(self.readbacks, self.measurements)` runs and
the window closes. -/
def load_current_stage (st : WinState) : LoadOutcome :=
  if st.current_stage_index < (st.test_stages.length : Int) then
    match pyGet st.test_stages st.current_stage_index with
    | some ch => .loaded ch
    | none => .indexError
  else
    .completedEmitClose st.readbacks st.measurements

/-- Tests whether a `LoadOutcome` is the completion path. -/
def LoadOutcome.isComplete : LoadOutcome → Bool
  | .completedEmitClose _ _ => true
  | _ => false

/-- The device-call block shared verbatim by `handle_next_btn`,
`handle_back_btn` and `closeEvent`: query the state and, if HV is
reported enabled, disable HV then zero the channel's target; query the
state again and, if the solenoid is reported enabled, disable the
solenoid current then zero its target.  `tok1` and `tok2` are the two
`get_state` responses. -/
def deviceSafetyCalls (channel tok1 tok2 : String) : List DevCall :=
  [DevCall.getState] ++
  (if get_hv_enable_state tok1 then
    [DevCall.disableHV, DevCall.setVoltage channel "0"] else []) ++
  [DevCall.getState] ++
  (if get_sol_enable_state tok2 then
    [DevCall.disableSol, DevCall.setSolenoidCurrent "0"] else [])

/-- Embeds `HVPSTestWindow.handle_next_btn`: runs the safety block for the
channel being left, then increments `current_stage_index` (the source then
calls `load_current_stage`, embedded separately). -/
def handle_next_btn (st : WinState) (tok1 tok2 : String) : WinState × List DevCall :=
  (⟨st.test_stages, st.current_stage_index + 1, st.readbacks, st.measurements,
    st.back_button_pressed, st.channel⟩,
   deviceSafetyCalls st.channel tok1 tok2)

/-- Embeds `HVPSTestWindow.handle_back_btn`: sets `back_button_pressed`,
runs the safety block for the channel being left, then decrements
`current_stage_index` (the source then calls `load_current_stage`,
embedded separately). -/
def handle_back_btn (st : WinState) (tok1 tok2 : String) : WinState × List DevCall :=
  (⟨st.test_stages, st.current_stage_index - 1, st.readbacks, st.measurements,
    true, st.channel⟩,
   deviceSafetyCalls st.channel tok1 tok2)

/-- Embeds `HVPSTestWindow.closeEvent`: runs the safety block for the
current channel and then emits `window_closed`; only the device calls are
returned. -/
def closeEvent (st : WinState) (tok1 tok2 : String) : List DevCall :=
  deviceSafetyCalls st.channel tok1 tok2

/-- Embeds the back-button enabled state installed by the stage builders:
`create_beam_test_gui` disables `self.back_btn` right after creating it,
while the other six builders leave the freshly created button enabled. -/
def back_btn_enabled (channel : String) : Bool :=
  if channel = "BM" then false else true

theorem get_hv_false_iff (s : String) :
    get_hv_enable_state s = false ↔ (s = "STATE0000" ∨ s = "STATE0010") := by
  unfold get_hv_enable_state
  split <;> simp_all

theorem get_sol_false_iff (s : String) :
    get_sol_enable_state s = false ↔ (s = "STATE0000" ∨ s = "STATE0001") := by
  unfold get_sol_enable_state
  split <;> simp_all

/-- C9: `get_hv_enable_state` returns `false` exactly for the tokens
`'STATE0000'` and `'STATE0010'` and `true` for every other string, and
`get_sol_enable_state` returns `false` exactly for `'STATE0000'` and
`'STATE0001'` and `true` for every other string. -/
theorem c9_enable_state_decoding (s : String) :
    (get_hv_enable_state s = false ↔ (s = "STATE0000" ∨ s = "STATE0010")) ∧
    (get_hv_enable_state s = true ↔ ¬(s = "STATE0000" ∨ s = "STATE0010")) ∧
    (get_sol_enable_state s = false ↔ (s = "STATE0000" ∨ s = "STATE0001")) ∧
    (get_sol_enable_state s = true ↔ ¬(s = "STATE0000" ∨ s = "STATE0001")) := by
  refine ⟨get_hv_false_iff s, ?_, get_sol_false_iff s, ?_⟩
  · rw [← get_hv_false_iff s]
    cases h : get_hv_enable_state s <;> simp [h]
  · rw [← get_sol_false_iff s]
    cases h : get_sol_enable_state s <;> simp [h]

theorem test_plan_eq_filter (occ : List String) :
    test_plan occ = sequencerBuildSpec occ := by
  unfold test_plan sequencerBuildSpec canonicalChannels
  by_cases h1 : "BM" ∈ occ <;> by_cases h2 : "EX" ∈ occ <;>
    by_cases h3 : "L1" ∈ occ <;> by_cases h4 : "L2" ∈ occ <;>
    by_cases h5 : "L3" ∈ occ <;> by_cases h6 : "L4" ∈ occ <;>
    by_cases h7 : "SL" ∈ occ <;>
    simp [h1, h2, h3, h4, h5, h6, h7, List.filter]

/-- C4: the stage list built by `test_plan` is the canonical order
BM, EX, L1, L2, L3, L4, SL filtered down to the occupied channels, and it
is a pure function of the occupancy set: two occupancy lists with the
same members yield the same stage list. -/
theorem c4_test_plan_canonical_filter (occ occ' : List String) :
    test_plan occ = canonicalChannels.filter (fun c => decide (c ∈ occ)) ∧
    ((∀ c, c ∈ occ ↔ c ∈ occ') → test_plan occ = test_plan occ') := by
  constructor
  · exact test_plan_eq_filter occ
  · intro hmem
    rw [test_plan_eq_filter occ, test_plan_eq_filter occ']
    unfold sequencerBuildSpec
    exact List.filter_congr (fun c _ => by simp [hmem c])

/-- Witness for C4 at a concrete occupancy: the determinism hypothesis is
discharged for the two membership-equal lists `["SL", "BM", "BM"]` and
`["BM", "SL"]`. -/
theorem c4_witness :
    test_plan ["SL", "BM", "BM"] = canonicalChannels.filter
      (fun c => decide (c ∈ ["SL", "BM", "BM"])) ∧
    test_plan ["SL", "BM", "BM"] = test_plan ["BM", "SL"] :=
  ⟨(c4_test_plan_canonical_filter ["SL", "BM", "BM"] ["BM", "SL"]).1,
   (c4_test_plan_canonical_filter ["SL", "BM", "BM"] ["BM", "SL"]).2
     (by intro c; constructor <;> (intro h; simp at h; rcases h with h | h <;> simp [h]))⟩

/-- The test target magnitudes `self.test_voltages` of
`HVPSTestWindow.__init__`. -/
def test_voltages : List String := ["100", "500", "1000"]

/-- The test target currents `self.test_currents` of
`HVPSTestWindow.__init__`. -/
def test_currents : List String := ["0.3", "1.2", "2.5"]

/-- Target voltage string commanded by the six HV test-button handlers, in
ladder order: points 0..2 use `test_voltages[0..2]` and points 3..5
prepend a minus sign (`f'-{self.test_voltages[k]}'`). -/
def hvTarget (i : Fin 6) : String :=
  if i.val < 3 then test_voltages.getD i.val ""
  else "-" ++ test_voltages.getD (i.val - 3) ""

/-- Widget state of one HV channel screen: the enabled state of the six
test buttons (`self.hv_buttons`) and of the six measurement line edits
(`self.line_edits`), plus `self.channel`. -/
structure HVStage where
  channel : String
  buttons : Fin 6 → Bool
  edits : Fin 6 → Bool

/-- Widget state installed by each HV `create_*_test_gui` builder: fresh
buttons (enabled) and all six measurement line edits explicitly
disabled. -/
def hvStageInit (channel : String) : HVStage :=
  ⟨channel, fun _ => true, fun _ => false⟩

/-- Embeds the six HV test-button handlers `handle_test_pos_100V_btn` …
`handle_test_neg_1kV_btn`, which differ only in the ladder point `i`:
enable measurement line edit `i` and focus it, disable every other test
button (the clicked one is skipped by the loop), command
`set_voltage(channel, target)`, then query the state and enable HV only
if it is not already enabled (`tok` is the `get_state` response). -/
def handle_test_hv_btn (i : Fin 6) (tok : String) (s : HVStage) :
    HVStage × List DevCall :=
  (⟨s.channel,
    fun j => if j = i then s.buttons j else false,
    fun j => if j = i then true else s.edits j⟩,
   [DevCall.setVoltage s.channel (hvTarget i), DevCall.getState] ++
   (if get_hv_enable_state tok then [] else [DevCall.enableHV]))

/-- Embeds the six HV capture handlers `handle_pos_100V_entered` …
`handle_neg_1kV_entered`, which differ only in the slot ordinal `i`:
read `get_voltage(channel)` (`readback` is the response), store
`readbacks[channel][i] = readback` and `measurements[channel][i] = text`
(the line edit's text, stored exactly as typed), disable the line edit,
command `set_voltage(channel, '0')` then `disable_high_voltage()`, and
re-enable all six test buttons. -/
def handle_hv_entered (i : Fin 6) (readback text : String) (s : HVStage)
    (readbacks measurements : ResultDict) :
    HVStage × ResultDict × ResultDict × List DevCall :=
  (⟨s.channel, fun _ => true, fun j => if j = i then false else s.edits j⟩,
   dictSet readbacks s.channel i.val readback,
   dictSet measurements s.channel i.val text,
   [DevCall.getVoltage s.channel, DevCall.setVoltage s.channel "0",
    DevCall.disableHV])

/-- `handle_test_pos_100V_btn` is the ladder-point-0 instance of the HV
test-button handler. -/
def handle_test_pos_100V_btn : String → HVStage → HVStage × List DevCall :=
  handle_test_hv_btn 0

/-- `handle_pos_100V_entered` is the ordinal-0 instance of the HV capture
handler. -/
def handle_pos_100V_entered :
    String → String → HVStage → ResultDict → ResultDict →
    HVStage × ResultDict × ResultDict × List DevCall :=
  handle_hv_entered 0

/-- Widget state of the solenoid channel screen: the enabled state of the
three current test buttons (`self.current_buttons`) and of the three
measurement line edits, plus `self.channel`. -/
structure SLStage where
  channel : String
  buttons : Fin 3 → Bool
  edits : Fin 3 → Bool

/-- Widget state installed by `create_sol_test_gui`: fresh buttons
(enabled) and all three measurement line edits explicitly disabled. -/
def slStageInit (channel : String) : SLStage :=
  ⟨channel, fun _ => true, fun _ => false⟩

/-- Embeds the three solenoid test-button handlers
`handle_test_sol_current1_btn` … `handle_test_sol_current3_btn`: enable
measurement line edit `i` and focus it, command
`set_solenoid_current(target)`, then query the state and enable the
solenoid current only if it is not already enabled.  Unlike the HV
handlers, these handlers do not disable the other test buttons. -/
def handle_test_sol_btn (i : Fin 3) (tok : String) (s : SLStage) :
    SLStage × List DevCall :=
  (⟨s.channel, s.buttons, fun j => if j = i then true else s.edits j⟩,
   [DevCall.setSolenoidCurrent (test_currents.getD i.val ""), DevCall.getState] ++
   (if get_sol_enable_state tok then [] else [DevCall.enableSol]))

/-- Embeds the three solenoid capture handlers `handle_current1_entered` …
`handle_current3_entered`: read `get_current(channel)`, store the
readback and the typed text at ordinal `i`, disable the line edit,
command `set_solenoid_current('0')` then `disable_solenoid_current()`,
and re-enable all three test buttons. -/
def handle_sol_entered (i : Fin 3) (readback text : String) (s : SLStage)
    (readbacks measurements : ResultDict) :
    SLStage × ResultDict × ResultDict × List DevCall :=
  (⟨s.channel, fun _ => true, fun j => if j = i then false else s.edits j⟩,
   dictSet readbacks s.channel i.val readback,
   dictSet measurements s.channel i.val text,
   [DevCall.getCurrent s.channel, DevCall.setSolenoidCurrent "0",
    DevCall.disableSol])

/-- `handle_test_sol_current1_btn` is the ladder-point-0 instance of the
solenoid test-button handler. -/
def handle_test_sol_current1_btn : String → SLStage → SLStage × List DevCall :=
  handle_test_sol_btn 0

/-- `handle_current1_entered` is the ordinal-0 instance of the solenoid
capture handler. -/
def handle_current1_entered :
    String → String → SLStage → ResultDict → ResultDict →
    SLStage × ResultDict × ResultDict × List DevCall :=
  handle_sol_entered 0

/-- Operator events on an HV channel screen: clicking test button `i`
(with the device's `get_state` response), or submitting the measurement
text for point `i` (with the device's `get_voltage` response). -/
inductive HVEv where
  | arm (i : Fin 6) (tok : String) : HVEv
  | capture (i : Fin 6) (readback text : String) : HVEv

/-- Qt delivers a click only to an enabled button and `returnPressed`
only to an enabled line edit; an HV event is deliverable iff its widget
is enabled. -/
def hvStepOk (s : HVStage) : HVEv → Bool
  | .arm i _ => s.buttons i
  | .capture i _ _ => s.edits i

/-- Widget-state effect of one HV event (the dict and trace components of
the handlers are dropped here; the stage component does not depend on
them). -/
def hvApply (s : HVStage) : HVEv → HVStage
  | .arm i tok => (handle_test_hv_btn i tok s).1
  | .capture i rb text => (handle_hv_entered i rb text s initResultDict initResultDict).1

/-- Runs a list of HV events, failing (`none`) if any event targets a
disabled widget. -/
def hvRun (s : HVStage) : List HVEv → Option HVStage
  | [] => some s
  | e :: es => if hvStepOk s e then hvRun (hvApply s e) es else none

/-- Operator events on the solenoid channel screen. -/
inductive SLEv where
  | arm (i : Fin 3) (tok : String) : SLEv
  | capture (i : Fin 3) (readback text : String) : SLEv

/-- Deliverability of a solenoid event: its widget must be enabled. -/
def slStepOk (s : SLStage) : SLEv → Bool
  | .arm i _ => s.buttons i
  | .capture i _ _ => s.edits i

/-- Widget-state effect of one solenoid event. -/
def slApply (s : SLStage) : SLEv → SLStage
  | .arm i tok => (handle_test_sol_btn i tok s).1
  | .capture i rb text => (handle_sol_entered i rb text s initResultDict initResultDict).1

/-- Runs a list of solenoid events, failing (`none`) if any event targets
a disabled widget. -/
def slRun (s : SLStage) : List SLEv → Option SLStage
  | [] => some s
  | e :: es => if slStepOk s e then slRun (slApply s e) es else none

/-- Invariant of an HV channel screen: at most one measurement line edit
is enabled (at most one point armed), and while one is, every other test
button is disabled. -/
def hvArmedInv (s : HVStage) : Prop :=
  (∀ i j : Fin 6, s.edits i = true → s.edits j = true → i = j) ∧
  (∀ i j : Fin 6, s.edits i = true → j ≠ i → s.buttons j = false)

theorem hvStageInit_inv (ch : String) : hvArmedInv (hvStageInit ch) := by
  constructor <;> (intro a b ha; simp [hvStageInit] at ha)

theorem hvApply_preserves_inv (s : HVStage) (e : HVEv)
    (hok : hvStepOk s e = true) (h : hvArmedInv s) : hvArmedInv (hvApply s e) := by
  obtain ⟨h1, h2⟩ := h
  cases e with
  | arm i tok =>
    simp only [hvStepOk] at hok
    constructor
    · intro a b ha hb
      simp only [hvApply, handle_test_hv_btn] at ha hb
      by_cases hai : a = i
      · by_cases hbi : b = i
        · rw [hai, hbi]
        · rw [if_neg hbi] at hb
          rw [h2 b i hb (fun hib => hbi hib.symm)] at hok
          exact absurd hok (by simp)
      · rw [if_neg hai] at ha
        rw [h2 a i ha (fun hia => hai hia.symm)] at hok
        exact absurd hok (by simp)
    · intro a b ha hbne
      simp only [hvApply, handle_test_hv_btn] at ha ⊢
      by_cases hai : a = i
      · rw [if_neg (fun hbi => hbne (hbi.trans hai.symm))]
      · rw [if_neg hai] at ha
        rw [h2 a i ha (fun hia => hai hia.symm)] at hok
        exact absurd hok (by simp)
  | capture i rb text =>
    simp only [hvStepOk] at hok
    constructor
    · intro a b ha hb
      simp only [hvApply, handle_hv_entered] at ha hb
      by_cases hai : a = i
      · rw [if_pos hai] at ha; cases ha
      · rw [if_neg hai] at ha
        exact absurd (h1 a i ha hok) hai
    · intro a b ha hbne
      simp only [hvApply, handle_hv_entered] at ha
      by_cases hai : a = i
      · rw [if_pos hai] at ha; cases ha
      · rw [if_neg hai] at ha
        exact absurd (h1 a i ha hok) hai

theorem hvRun_inv (evs : List HVEv) :
    ∀ s s' : HVStage, hvRun s evs = some s' → hvArmedInv s → hvArmedInv s' := by
  induction evs with
  | nil =>
    intro s s' h hi
    simp only [hvRun, Option.some.injEq] at h
    rwa [← h]
  | cons e es ih =>
    intro s s' h hi
    simp only [hvRun] at h
    by_cases hok : hvStepOk s e = true
    · rw [if_pos hok] at h
      exact ih _ _ h (hvApply_preserves_inv s e hok hi)
    · rw [if_neg hok] at h
      cases h

/-- C2 fails for the solenoid channel: the solenoid test-button handlers
do not disable the other current test buttons, so after arming point 0
the point-1 button is still enabled, and clicking it arms point 1 while
point 0 is still armed — two measurement line edits enabled at once on
the SL channel. -/
theorem c2_counterexample_sl_two_armed :
    (slRun (slStageInit "SL") [SLEv.arm 0 "STATE0000", SLEv.arm 1 "STATE0000"]).map
      (fun s => (s.edits 0, s.edits 1, s.buttons 1)) = some (true, true, true) := by
  rfl

/-- C2 (amended): for every HV channel, at most one test point is armed at
any time — selecting a test point disables every other test-point trigger
until the armed point is captured; the solenoid handlers do not disable
the other current triggers, so the invariant does not extend to the SL
channel. -/
theorem c2_amended_hv_single_armed (ch : String) (evs : List HVEv) (s' : HVStage)
    (h : hvRun (hvStageInit ch) evs = some s') :
    (∀ i j : Fin 6, s'.edits i = true → s'.edits j = true → i = j) ∧
    (∀ i j : Fin 6, s'.edits i = true → j ≠ i → s'.buttons j = false) :=
  hvRun_inv evs (hvStageInit ch) s' h (hvStageInit_inv ch)

/-- Witness for the amended C2: after the deliverable event sequence that
arms point 0 on the BM screen, test button 1 is disabled. -/
theorem c2_amended_witness :
    (hvApply (hvStageInit "BM") (HVEv.arm 0 "STATE0000")).buttons 1 = false :=
  (c2_amended_hv_single_armed "BM" [HVEv.arm 0 "STATE0000"]
      (hvApply (hvStageInit "BM") (HVEv.arm 0 "STATE0000")) rfl).2 0 1 rfl
    (by decide)

theorem channel_key_cases (ch : String) :
    ch = "BM" ∨ ch = "EX" ∨ ch = "L1" ∨ ch = "L2" ∨ ch = "L3" ∨ ch = "L4" ∨
    ch = "SL" ∨
    (ch ≠ "BM" ∧ ch ≠ "EX" ∧ ch ≠ "L1" ∧ ch ≠ "L2" ∧ ch ≠ "L3" ∧ ch ≠ "L4" ∧
     ch ≠ "SL") := by
  tauto

theorem dictGet_dictSet_self (d : ResultDict) (ch : String) (n : Nat) (v : String) :
    dictGet (dictSet d ch n v) ch = (dictGet d ch).set n v := by
  rcases channel_key_cases ch with h | h | h | h | h | h | h | ⟨h1, h2, h3, h4, h5, h6, h7⟩
  · subst h; simp [dictGet, dictSet]
  · subst h; simp [dictGet, dictSet]
  · subst h; simp [dictGet, dictSet]
  · subst h; simp [dictGet, dictSet]
  · subst h; simp [dictGet, dictSet]
  · subst h; simp [dictGet, dictSet]
  · subst h; simp [dictGet, dictSet]
  · simp only [dictGet, dictSet, if_neg h1, if_neg h2, if_neg h3, if_neg h4,
      if_neg h5, if_neg h6, if_neg h7]
    cases n <;> rfl

theorem dictGet_dictSet_ne (d : ResultDict) (ch ch' : String) (hne : ch ≠ ch')
    (n : Nat) (v : String) :
    dictGet (dictSet d ch' n v) ch = dictGet d ch := by
  rcases channel_key_cases ch' with h | h | h | h | h | h | h | ⟨h1, h2, h3, h4, h5, h6, h7⟩
  · subst h; simp [dictGet, dictSet, hne]
  · subst h; simp [dictGet, dictSet, hne]
  · subst h; simp [dictGet, dictSet, hne]
  · subst h; simp [dictGet, dictSet, hne]
  · subst h; simp [dictGet, dictSet, hne]
  · subst h; simp [dictGet, dictSet, hne]
  · subst h; simp [dictGet, dictSet, hne]
  · simp only [dictSet, if_neg h1, if_neg h2, if_neg h3, if_neg h4, if_neg h5,
      if_neg h6, if_neg h7]

/-- C5: a capture submitted while point `i` is armed stores the line
edit's text into `measurements[channel][i]` exactly as typed (any string;
the decimal validators in the source are commented out, so nothing is
rejected before committing), and stores the device's `get_voltage` /
`get_current` response into `readbacks[channel][i]`; this holds for the
HV capture handlers and for the solenoid capture handlers. -/
theorem c5_capture_roundtrip (i : Fin 6) (j : Fin 3) (rb text rb' text' : String)
    (s : HVStage) (t : SLStage) (rbs ms rbs' ms' : ResultDict)
    (harm : s.edits i = true) (harm' : t.edits j = true)
    (hlen1 : (dictGet rbs s.channel).length = 6)
    (hlen2 : (dictGet ms s.channel).length = 6)
    (hlen3 : (dictGet rbs' t.channel).length = 3)
    (hlen4 : (dictGet ms' t.channel).length = 3) :
    ((dictGet (handle_hv_entered i rb text s rbs ms).2.1 s.channel)[i.val]? =
        some rb ∧
      (dictGet (handle_hv_entered i rb text s rbs ms).2.2.1 s.channel)[i.val]? =
        some text) ∧
    ((dictGet (handle_sol_entered j rb' text' t rbs' ms').2.1 t.channel)[j.val]? =
        some rb' ∧
      (dictGet (handle_sol_entered j rb' text' t rbs' ms').2.2.1 t.channel)[j.val]? =
        some text') := by
  refine ⟨⟨?_, ?_⟩, ?_, ?_⟩
  · simp only [handle_hv_entered]
    rw [dictGet_dictSet_self]
    exact List.getElem?_set_eq_of_lt rb (by rw [hlen1]; exact i.isLt)
  · simp only [handle_hv_entered]
    rw [dictGet_dictSet_self]
    exact List.getElem?_set_eq_of_lt text (by rw [hlen2]; exact i.isLt)
  · simp only [handle_sol_entered]
    rw [dictGet_dictSet_self]
    exact List.getElem?_set_eq_of_lt rb' (by rw [hlen3]; exact j.isLt)
  · simp only [handle_sol_entered]
    rw [dictGet_dictSet_self]
    exact List.getElem?_set_eq_of_lt text' (by rw [hlen4]; exact j.isLt)

/-- Witness for C5: capturing `'503.2'` at armed point 0 of the BM screen
stores exactly `'503.2'` at `measurements['BM'][0]`, and capturing on the
armed SL screen stores the device readback `'0.29'` at
`readbacks['SL'][0]`. -/
theorem c5_witness :
    (dictGet (handle_hv_entered 0 "99.8" "503.2"
        (hvApply (hvStageInit "BM") (HVEv.arm 0 "STATE0000"))
        initResultDict initResultDict).2.2.1 "BM")[0]? = some "503.2" ∧
    (dictGet (handle_sol_entered 0 "0.29" "0.3"
        (slApply (slStageInit "SL") (SLEv.arm 0 "STATE0000"))
        initResultDict initResultDict).2.1 "SL")[0]? = some "0.29" :=
  ⟨(c5_capture_roundtrip 0 0 "99.8" "503.2" "0.29" "0.3"
      (hvApply (hvStageInit "BM") (HVEv.arm 0 "STATE0000"))
      (slApply (slStageInit "SL") (SLEv.arm 0 "STATE0000"))
      initResultDict initResultDict initResultDict initResultDict
      rfl rfl rfl rfl rfl rfl).1.2,
   (c5_capture_roundtrip 0 0 "99.8" "503.2" "0.29" "0.3"
      (hvApply (hvStageInit "BM") (HVEv.arm 0 "STATE0000"))
      (slApply (slStageInit "SL") (SLEv.arm 0 "STATE0000"))
      initResultDict initResultDict initResultDict initResultDict
      rfl rfl rfl rfl rfl rfl).2.1⟩

/-- C6: arming point 0 on channel BM issues `set_voltage('BM', '100')`,
then reads the state, and issues `enable_high_voltage()` exactly when HV
is not already enabled; the matching capture issues
`set_voltage('BM', '0')` and then `disable_high_voltage()`, in that
order, after reading the readback. -/
theorem c6_arm_capture_bm (tok rb text : String) (s : HVStage)
    (hch : s.channel = "BM") (rbs ms : ResultDict) :
    (get_hv_enable_state tok = false →
      (handle_test_pos_100V_btn tok s).2 =
        [DevCall.setVoltage "BM" "100", DevCall.getState, DevCall.enableHV]) ∧
    (get_hv_enable_state tok = true →
      (handle_test_pos_100V_btn tok s).2 =
        [DevCall.setVoltage "BM" "100", DevCall.getState]) ∧
    (handle_pos_100V_entered rb text s rbs ms).2.2.2 =
      [DevCall.getVoltage "BM", DevCall.setVoltage "BM" "0",
       DevCall.disableHV] := by
  refine ⟨?_, ?_, ?_⟩
  · intro h
    simp [handle_test_pos_100V_btn, handle_test_hv_btn, h, hch, hvTarget,
      test_voltages]
  · intro h
    simp [handle_test_pos_100V_btn, handle_test_hv_btn, h, hch, hvTarget,
      test_voltages]
  · simp [handle_pos_100V_entered, handle_hv_entered, hch]

/-- Witness for C6: with the device reporting `'STATE0000'` (HV off), the
arm trace on a fresh BM screen ends with `enable_high_voltage`, and the
capture trace zeroes the target and then disables HV. -/
theorem c6_witness :
    (handle_test_pos_100V_btn "STATE0000" (hvStageInit "BM")).2 =
      [DevCall.setVoltage "BM" "100", DevCall.getState, DevCall.enableHV] ∧
    (handle_pos_100V_entered "99.8" "99.8" (hvStageInit "BM")
        initResultDict initResultDict).2.2.2 =
      [DevCall.getVoltage "BM", DevCall.setVoltage "BM" "0",
       DevCall.disableHV] :=
  ⟨(c6_arm_capture_bm "STATE0000" "99.8" "99.8" (hvStageInit "BM") rfl
      initResultDict initResultDict).1 rfl,
   (c6_arm_capture_bm "STATE0000" "99.8" "99.8" (hvStageInit "BM") rfl
      initResultDict initResultDict).2.2⟩

theorem safety_hv_consec (ch tok1 tok2 : String)
    (h : get_hv_enable_state tok1 = true) :
    [DevCall.disableHV, DevCall.setVoltage ch "0"] <:+:
      deviceSafetyCalls ch tok1 tok2 :=
  ⟨[DevCall.getState],
   [DevCall.getState] ++
     (if get_sol_enable_state tok2 then
       [DevCall.disableSol, DevCall.setSolenoidCurrent "0"] else []),
   by simp [deviceSafetyCalls, h]⟩

theorem safety_sol_consec (ch tok1 tok2 : String)
    (h : get_sol_enable_state tok2 = true) :
    [DevCall.disableSol, DevCall.setSolenoidCurrent "0"] <:+:
      deviceSafetyCalls ch tok1 tok2 :=
  ⟨[DevCall.getState] ++
     (if get_hv_enable_state tok1 then
       [DevCall.disableHV, DevCall.setVoltage ch "0"] else []) ++
     [DevCall.getState],
   [],
   by simp [deviceSafetyCalls, h]⟩

theorem safety_two_state_queries (ch tok1 tok2 : String) :
    (deviceSafetyCalls ch tok1 tok2).count DevCall.getState = 2 := by
  unfold deviceSafetyCalls
  by_cases h1 : get_hv_enable_state tok1 <;>
    by_cases h2 : get_sol_enable_state tok2 <;>
    simp [h1, h2, List.count_append, List.count_cons]

/-- C1: on a Next click, a Back click, and on window close, if the device
reports HV enabled the handler issues `disable_high_voltage()` followed
immediately by `set_voltage(channel, '0')` for the channel being left;
if the device reports the solenoid enabled it issues
`disable_solenoid_current()` followed by `set_solenoid_current('0')`;
each of the three handlers queries the state for both checks on every
invocation (exactly two `get_state` calls), so disabling is never skipped
while the corresponding output is reported enabled. -/
theorem c1_transition_safety (st : WinState) (tok1 tok2 : String) :
    (get_hv_enable_state tok1 = true →
      ([DevCall.disableHV, DevCall.setVoltage st.channel "0"] <:+:
          (handle_next_btn st tok1 tok2).2) ∧
      ([DevCall.disableHV, DevCall.setVoltage st.channel "0"] <:+:
          (handle_back_btn st tok1 tok2).2) ∧
      ([DevCall.disableHV, DevCall.setVoltage st.channel "0"] <:+:
          closeEvent st tok1 tok2)) ∧
    (get_sol_enable_state tok2 = true →
      ([DevCall.disableSol, DevCall.setSolenoidCurrent "0"] <:+:
          (handle_next_btn st tok1 tok2).2) ∧
      ([DevCall.disableSol, DevCall.setSolenoidCurrent "0"] <:+:
          (handle_back_btn st tok1 tok2).2) ∧
      ([DevCall.disableSol, DevCall.setSolenoidCurrent "0"] <:+:
          closeEvent st tok1 tok2)) ∧
    ((handle_next_btn st tok1 tok2).2.count DevCall.getState = 2 ∧
     (handle_back_btn st tok1 tok2).2.count DevCall.getState = 2 ∧
     (closeEvent st tok1 tok2).count DevCall.getState = 2) :=
  ⟨fun h => ⟨safety_hv_consec st.channel tok1 tok2 h,
             safety_hv_consec st.channel tok1 tok2 h,
             safety_hv_consec st.channel tok1 tok2 h⟩,
   fun h => ⟨safety_sol_consec st.channel tok1 tok2 h,
             safety_sol_consec st.channel tok1 tok2 h,
             safety_sol_consec st.channel tok1 tok2 h⟩,
   safety_two_state_queries st.channel tok1 tok2,
   safety_two_state_queries st.channel tok1 tok2,
   safety_two_state_queries st.channel tok1 tok2⟩

/-- Witness for C1: with the device reporting `'STATE0011'` (HV on and
solenoid on), the Next-click trace contains disable-HV followed by
zeroing the BM target, and the close trace contains disable-solenoid
followed by zeroing the solenoid target. -/
theorem c1_witness :
    ([DevCall.disableHV, DevCall.setVoltage "BM" "0"] <:+:
      (handle_next_btn ⟨[], 0, initResultDict, initResultDict, false, "BM"⟩
        "STATE0011" "STATE0011").2) ∧
    ([DevCall.disableSol, DevCall.setSolenoidCurrent "0"] <:+:
      closeEvent ⟨[], 0, initResultDict, initResultDict, false, "BM"⟩
        "STATE0011" "STATE0011") :=
  ⟨((c1_transition_safety ⟨[], 0, initResultDict, initResultDict, false, "BM"⟩
      "STATE0011" "STATE0011").1 rfl).1,
   ((c1_transition_safety ⟨[], 0, initResultDict, initResultDict, false, "BM"⟩
      "STATE0011" "STATE0011").2.1 rfl).2.2⟩

/-- C3 fails when the first occupied channel is not BM: only
`create_beam_test_gui` disables the back button, so with occupancy
`['EX']` the first (and only) stage is EX, its Back control is enabled,
and clicking it decrements the stage index from 0 to -1. -/
theorem c3_counterexample_back_enabled_first_stage :
    test_plan ["EX"] = ["EX"] ∧
    back_btn_enabled "EX" = true ∧
    (handle_back_btn ⟨test_plan ["EX"], 0, initResultDict, initResultDict,
        false, "EX"⟩ "STATE0000" "STATE0000").1.current_stage_index = -1 :=
  ⟨rfl, rfl, rfl⟩

/-- Navigation events on a stage screen: a Next or Back button click. -/
inductive NavEv where
  | next : NavEv
  | back : NavEv

/-- A navigation click is deliverable only while a stage GUI is on screen
(`0 ≤ index < len`, the normal-path condition under which
`load_current_stage` has built a GUI at `index`), and a Back click also
requires the on-screen stage's back button to be enabled
(`back_btn_enabled`). -/
def navOk (stages : List String) (index : Int) : NavEv → Bool
  | .next => decide (0 ≤ index) && decide (index < (stages.length : Int))
  | .back => decide (0 ≤ index) && decide (index < (stages.length : Int)) &&
      (match pyGet stages index with
       | some ch => back_btn_enabled ch
       | none => false)

/-- Index effect of a navigation click: `handle_next_btn` increments the
stage index, `handle_back_btn` decrements it. -/
def navApply (index : Int) : NavEv → Int
  | .next => index + 1
  | .back => index - 1

/-- Runs a list of guarded navigation clicks from a starting index. -/
def navRun (stages : List String) : Int → List NavEv → Option Int
  | index, [] => some index
  | index, e :: es =>
      if navOk stages index e then navRun stages (navApply index e) es else none

theorem navRun_nonneg (stages : List String) (hhead : stages.head? = some "BM")
    (evs : List NavEv) :
    ∀ index idx : Int, 0 ≤ index → navRun stages index evs = some idx →
      0 ≤ idx := by
  induction evs with
  | nil =>
    intro index idx h0 h
    simp only [navRun, Option.some.injEq] at h
    omega
  | cons e es ih =>
    intro index idx h0 h
    simp only [navRun] at h
    by_cases hok : navOk stages index e = true
    · rw [if_pos hok] at h
      refine ih _ idx ?_ h
      cases e with
      | next =>
        simp only [navApply]
        omega
      | back =>
        simp only [navApply]
        simp only [navOk, Bool.and_eq_true, decide_eq_true_eq] at hok
        obtain ⟨⟨h1, h2⟩, h3⟩ := hok
        rcases eq_or_lt_of_le h1 with heq | hlt
        · exfalso
          rw [← heq] at h3
          have hz : pyGet stages 0 = some "BM" := by
            simp only [pyGet, le_refl, if_pos, Int.toNat_zero]
            rw [List.get?_zero, hhead]
          rw [hz] at h3
          simp [back_btn_enabled] at h3
        · omega
    · rw [if_neg hok] at h
      cases h

/-- C3 (amended): the Back handler itself has no index guard; the
precondition `index > 0` is enforced structurally only by the BM screen,
whose builder disables the back button.  Since BM, when occupied, is
always the first stage, every occupancy set containing BM gets the
claimed behaviour: Back is disabled on the first stage, so under
deliverable Next/Back clicks the stage index never becomes negative.
When the first occupied channel is not BM, Back is enabled at index 0 and
clicking it drives the index to -1 (see the counterexample). -/
theorem c3_amended_bm_first_back_safe (occ : List String) (hbm : "BM" ∈ occ)
    (evs : List NavEv) (idx : Int)
    (hrun : navRun (test_plan occ) 0 evs = some idx) :
    (test_plan occ).head? = some "BM" ∧
    back_btn_enabled "BM" = false ∧
    0 ≤ idx := by
  have hhead : (test_plan occ).head? = some "BM" := by
    simp [test_plan, hbm]
  exact ⟨hhead, rfl,
    navRun_nonneg (test_plan occ) hhead evs 0 idx (le_refl 0) hrun⟩

/-- Witness for the amended C3: with occupancy `['BM', 'EX']`, the click
sequence Next then Back is deliverable and returns the index to 0, never
negative. -/
theorem c3_amended_witness :
    (test_plan ["BM", "EX"]).head? = some "BM" ∧
    back_btn_enabled "BM" = false ∧
    (0 : Int) ≤ 0 :=
  c3_amended_bm_first_back_safe ["BM", "EX"] (by simp)
    [NavEv.next, NavEv.back] 0 rfl

/-- C10: `load_current_stage` guards only `index < len(test_stages)` with
no lower bound, so for every in-guard index it never takes the completion
path, and the index -1 — reachable by a Back click at index 0 whenever the
first occupied channel is not BM, since `handle_back_btn` decrements
unconditionally — selects the LAST stage by Python negative indexing
rather than raising an error or signalling completion. -/
theorem c10_negative_index_wraps (stages : List String) (h : stages ≠ [])
    (rbs ms : ResultDict) (b : Bool) (ch : String) :
    (∀ i : Int, i < (stages.length : Int) →
      (load_current_stage ⟨stages, i, rbs, ms, b, ch⟩).isComplete = false) ∧
    load_current_stage ⟨stages, -1, rbs, ms, b, ch⟩ =
      LoadOutcome.loaded (stages.getLast h) ∧
    (∀ (st : WinState) (tok1 tok2 : String), st.current_stage_index = 0 →
      (handle_back_btn st tok1 tok2).1.current_stage_index = -1) := by
  refine ⟨?_, ?_, ?_⟩
  · intro i hi
    simp only [load_current_stage]
    rw [if_pos hi]
    cases hp : pyGet stages i <;> simp [LoadOutcome.isComplete]
  · have hpos : 0 < stages.length := List.length_pos.mpr h
    have hlt : (-1 : Int) < (stages.length : Int) := by omega
    simp only [load_current_stage]
    rw [if_pos hlt]
    have hp : pyGet stages (-1) = some (stages.getLast h) := by
      have hnn : (0 : Int) ≤ (stages.length : Int) + (-1) := by omega
      have htn : ((stages.length : Int) + (-1)).toNat = stages.length - 1 := by
        omega
      simp only [pyGet]
      rw [if_neg (by omega), if_pos hnn, htn]
      rw [List.getLast_eq_getElem, List.get?_eq_getElem?,
        List.getElem?_eq_getElem]
    rw [hp]
  · intro st tok1 tok2 h0
    simp only [handle_back_btn]
    rw [h0]
    rfl

/-- Witness for C10: with stage list `['BM', 'SL']`, loading at index -1
builds the SL stage (the last one), and a Back click at index 0 yields
index -1. -/
theorem c10_witness :
    load_current_stage ⟨["BM", "SL"], -1, initResultDict, initResultDict,
        false, "SL"⟩ = LoadOutcome.loaded "SL" ∧
    (handle_back_btn ⟨["BM", "SL"], 0, initResultDict, initResultDict,
        false, "BM"⟩ "STATE0000" "STATE0000").1.current_stage_index = -1 :=
  ⟨(c10_negative_index_wraps ["BM", "SL"] (by simp) initResultDict
      initResultDict false "SL").2.1,
   (c10_negative_index_wraps ["BM", "SL"] (by simp) initResultDict
      initResultDict false "SL").2.2
     ⟨["BM", "SL"], 0, initResultDict, initResultDict, false, "BM"⟩
     "STATE0000" "STATE0000" rfl⟩

/-- The result-dict effect common to all nine `handle_*_entered` capture
handlers: the pair of assignments
`self.readbacks[self.channel][i] = readback` and
`self.measurements[self.channel][i] = measurement`. -/
structure Capture where
  channel : String
  idx : Nat
  readback : String
  measurement : String

/-- Applies one capture's pair of dict assignments. -/
def applyCapture (p : ResultDict × ResultDict) (c : Capture) :
    ResultDict × ResultDict :=
  (dictSet p.1 c.channel c.idx c.readback,
   dictSet p.2 c.channel c.idx c.measurement)

/-- The two result dicts after a session's captures, starting from the
sentinel-filled dict literals of `HVPSTestWindow.__init__`. -/
def runCaptures (evs : List Capture) : ResultDict × ResultDict :=
  evs.foldl applyCapture (initResultDict, initResultDict)

theorem hv_entered_dicts_eq_applyCapture (i : Fin 6) (rb text : String)
    (s : HVStage) (rbs ms : ResultDict) :
    ((handle_hv_entered i rb text s rbs ms).2.1,
     (handle_hv_entered i rb text s rbs ms).2.2.1) =
      applyCapture (rbs, ms) ⟨s.channel, i.val, rb, text⟩ := rfl

theorem sol_entered_dicts_eq_applyCapture (i : Fin 3) (rb text : String)
    (s : SLStage) (rbs ms : ResultDict) :
    ((handle_sol_entered i rb text s rbs ms).2.1,
     (handle_sol_entered i rb text s rbs ms).2.2.1) =
      applyCapture (rbs, ms) ⟨s.channel, i.val, rb, text⟩ := rfl

theorem dictSet_slot_frame (d : ResultDict) (ch ch' : String) (n i : Nat)
    (v : String) (h : ¬(ch' = ch ∧ n = i)) :
    (dictGet (dictSet d ch' n v) ch)[i]? = (dictGet d ch)[i]? := by
  by_cases hc : ch' = ch
  · subst hc
    have hn : n ≠ i := fun he => h ⟨rfl, he⟩
    rw [dictGet_dictSet_self]
    exact List.getElem?_set_ne hn
  · rw [dictGet_dictSet_ne d ch ch' (fun he => hc he.symm) n v]

theorem foldl_slot_frame (ch : String) (i : Nat) (evs : List Capture) :
    ∀ p : ResultDict × ResultDict,
      (∀ ev ∈ evs, ¬(ev.channel = ch ∧ ev.idx = i)) →
      (dictGet (List.foldl applyCapture p evs).1 ch)[i]? =
          (dictGet p.1 ch)[i]? ∧
      (dictGet (List.foldl applyCapture p evs).2 ch)[i]? =
          (dictGet p.2 ch)[i]? := by
  induction evs with
  | nil => intro p _; exact ⟨rfl, rfl⟩
  | cons ev evs ih =>
    intro p h
    have hev : ¬(ev.channel = ch ∧ ev.idx = i) := h ev (by simp)
    have hrest : ∀ e ∈ evs, ¬(e.channel = ch ∧ e.idx = i) :=
      fun e he => h e (by simp [he])
    rcases ih (applyCapture p ev) hrest with ⟨h1, h2⟩
    refine ⟨?_, ?_⟩
    · rw [List.foldl_cons, h1]
      exact dictSet_slot_frame p.1 ch ev.channel ev.idx i ev.readback hev
    · rw [List.foldl_cons, h2]
      exact dictSet_slot_frame p.2 ch ev.channel ev.idx i ev.measurement hev

theorem foldl_channel_frame (ch : String) (evs : List Capture) :
    ∀ p : ResultDict × ResultDict,
      (∀ ev ∈ evs, ev.channel ≠ ch) →
      dictGet (List.foldl applyCapture p evs).1 ch = dictGet p.1 ch ∧
      dictGet (List.foldl applyCapture p evs).2 ch = dictGet p.2 ch := by
  induction evs with
  | nil => intro p _; exact ⟨rfl, rfl⟩
  | cons ev evs ih =>
    intro p h
    have hev : ev.channel ≠ ch := h ev (by simp)
    have hrest : ∀ e ∈ evs, e.channel ≠ ch := fun e he => h e (by simp [he])
    rcases ih (applyCapture p ev) hrest with ⟨h1, h2⟩
    refine ⟨?_, ?_⟩
    · rw [List.foldl_cons, h1]
      exact dictGet_dictSet_ne p.1 ch ev.channel (fun he => hev he.symm) _ _
    · rw [List.foldl_cons, h2]
      exact dictGet_dictSet_ne p.2 ch ev.channel (fun he => hev he.symm) _ _

theorem dictGet_dictSet_length (d : ResultDict) (ch ch' : String) (n : Nat)
    (v : String) :
    (dictGet (dictSet d ch' n v) ch).length = (dictGet d ch).length := by
  by_cases hc : ch' = ch
  · subst hc
    rw [dictGet_dictSet_self, List.length_set]
  · rw [dictGet_dictSet_ne d ch ch' (fun he => hc he.symm) n v]

theorem foldl_channel_length (ch : String) (evs : List Capture) :
    ∀ p : ResultDict × ResultDict,
      (dictGet (List.foldl applyCapture p evs).1 ch).length =
          (dictGet p.1 ch).length ∧
      (dictGet (List.foldl applyCapture p evs).2 ch).length =
          (dictGet p.2 ch).length := by
  induction evs with
  | nil => intro p; exact ⟨rfl, rfl⟩
  | cons ev evs ih =>
    intro p
    rcases ih (applyCapture p ev) with ⟨h1, h2⟩
    refine ⟨?_, ?_⟩
    · rw [List.foldl_cons, h1]
      exact dictGet_dictSet_length p.1 ch ev.channel ev.idx ev.readback
    · rw [List.foldl_cons, h2]
      exact dictGet_dictSet_length p.2 ch ev.channel ev.idx ev.measurement

theorem dictGet_init (ch : String) (hch : ch ∈ canonicalChannels) :
    dictGet initResultDict ch = List.replicate (slots ch) "N/I" := by
  simp only [canonicalChannels, List.mem_cons, List.not_mem_nil, or_false]
    at hch
  rcases hch with rfl | rfl | rfl | rfl | rfl | rfl | rfl <;> rfl

theorem mem_test_plan_mem_occ (c : String) (occ : List String)
    (h : c ∈ test_plan occ) : c ∈ occ := by
  rw [test_plan_eq_filter] at h
  unfold sequencerBuildSpec at h
  exact of_decide_eq_true (List.mem_filter.mp h).2

/-- C8: both result dicts start with every slot equal to the sentinel
`'N/I'` (six slots per HV channel, three for SL, regardless of
occupancy); a slot changes only through a capture at its own
(channel, ordinal), and captures can only name channels on the stage
list, so every slot of an unoccupied channel — and every uncaptured slot
of an occupied one — still holds `'N/I'` at the end of the session. -/
theorem c8_sentinel_slots (occ : List String) (evs : List Capture)
    (ch : String) (i : Nat)
    (hev : ∀ ev ∈ evs, ev.channel ∈ test_plan occ)
    (hch : ch ∈ canonicalChannels) :
    dictGet initResultDict ch = List.replicate (slots ch) "N/I" ∧
    (ch ∉ occ →
      dictGet (runCaptures evs).1 ch = List.replicate (slots ch) "N/I" ∧
      dictGet (runCaptures evs).2 ch = List.replicate (slots ch) "N/I") ∧
    (i < slots ch → (∀ ev ∈ evs, ¬(ev.channel = ch ∧ ev.idx = i)) →
      (dictGet (runCaptures evs).1 ch)[i]? = some "N/I" ∧
      (dictGet (runCaptures evs).2 ch)[i]? = some "N/I") := by
  have hinit := dictGet_init ch hch
  refine ⟨hinit, ?_, ?_⟩
  · intro hocc
    have hne : ∀ ev ∈ evs, ev.channel ≠ ch := fun ev he heq =>
      hocc (heq ▸ mem_test_plan_mem_occ ev.channel occ (hev ev he))
    rcases foldl_channel_frame ch evs (initResultDict, initResultDict) hne
      with ⟨h1, h2⟩
    exact ⟨h1.trans hinit, h2.trans hinit⟩
  · intro hi hnone
    rcases foldl_slot_frame ch i evs (initResultDict, initResultDict) hnone
      with ⟨h1, h2⟩
    have hslot : (dictGet initResultDict ch)[i]? = some "N/I" := by
      rw [hinit]
      rw [List.getElem?_eq_getElem (by simpa using hi)]
      simp
    exact ⟨h1.trans hslot, h2.trans hslot⟩

/-- Witness for C8: after a session on occupancy `['BM']` with one capture
at (BM, 0), the unoccupied SL channel still holds its three sentinels and
the uncaptured slot (BM, 1) still holds `'N/I'`. -/
theorem c8_witness :
    dictGet (runCaptures [⟨"BM", 0, "99.8", "100.1"⟩]).1 "SL" =
      List.replicate (slots "SL") "N/I" ∧
    (dictGet (runCaptures [⟨"BM", 0, "99.8", "100.1"⟩]).2 "BM")[1]? =
      some "N/I" :=
  ⟨((c8_sentinel_slots ["BM"] [⟨"BM", 0, "99.8", "100.1"⟩] "SL" 0
      (by decide) (by simp [canonicalChannels])).2.1 (by decide)).1,
   ((c8_sentinel_slots ["BM"] [⟨"BM", 0, "99.8", "100.1"⟩] "BM" 1
      (by decide) (by simp [canonicalChannels])).2.2 (by decide)
      (by decide)).2⟩

/-- C7: when the stage index has reached the length of the stage list,
`load_current_stage` takes the completion path: it emits exactly the two
accumulated dicts — readbacks and measurements — through `test_complete`
and then closes the window; and each accumulated dict still carries the
seven canonical channel keys with a 6-element list for each of BM, EX,
L1, L2, L3, L4 and a 3-element list for SL. -/
theorem c7_completion_emits (occ : List String) (evs : List Capture)
    (b : Bool) (ch0 : String) :
    load_current_stage ⟨test_plan occ, ((test_plan occ).length : Int),
        (runCaptures evs).1, (runCaptures evs).2, b, ch0⟩ =
      LoadOutcome.completedEmitClose (runCaptures evs).1 (runCaptures evs).2 ∧
    (∀ ch ∈ canonicalChannels,
      (dictGet (runCaptures evs).1 ch).length = slots ch ∧
      (dictGet (runCaptures evs).2 ch).length = slots ch) := by
  constructor
  · simp [load_current_stage]
  · intro ch hch
    rcases foldl_channel_length ch evs (initResultDict, initResultDict)
      with ⟨h1, h2⟩
    have hlen : (dictGet initResultDict ch).length = slots ch := by
      rw [dictGet_init ch hch]
      simp
    exact ⟨h1.trans hlen, h2.trans hlen⟩

/-- Witness for C7: an empty-capture session on occupancy `['BM']` emits
both sentinel dicts when the index reaches the stage-list length, and the
emitted readbacks dict still has a 3-slot SL entry. -/
theorem c7_witness :
    load_current_stage ⟨test_plan ["BM"], ((test_plan ["BM"]).length : Int),
        (runCaptures []).1, (runCaptures []).2, false, "BM"⟩ =
      LoadOutcome.completedEmitClose (runCaptures []).1 (runCaptures []).2 ∧
    (dictGet (runCaptures []).1 "SL").length = slots "SL" :=
  ⟨(c7_completion_emits ["BM"] [] false "BM").1,
   ((c7_completion_emits ["BM"] [] false "BM").2 "SL"
      (by simp [canonicalChannels])).1⟩
